import Mathlib

/-!
Shallow embedding of `src/loadlog.py` (kentwait/loadlog).

The Python program samples CPU/memory (and optionally sensor) statistics
before, during and after running a child command, appending lines to a log
file.  External collaborators (psutil, the `istats` tool, the OS clock) are
modelled as explicit environment values handed to the embedded functions;
Python runtime exceptions are modelled with `Except PyError`.

Numeric readings (CPU percentages, memory percentages, temperatures, fan
speeds) are carried as exact rationals: no claim computes with their values,
only with their presence, count and the control flow around them.
-/

/-- Python runtime exceptions that arise in loadlog.py. -/
inductive PyError where
  /-- `AttributeError`: attribute access on an object/module that lacks it. -/
  | attributeError (name : String)
  /-- `NameError`: a name bound in no enclosing scope. -/
  | nameError (name : String)
  /-- `TypeError`: operation applied at an unsupported type / bad keyword. -/
  | typeError (msg : String)
  /-- `FileNotFoundError`: launching a missing executable. -/
  | fileNotFoundError (name : String)
  deriving DecidableEq, Repr

/-- The fragment of Python values that flows through `log_entry`'s list
expressions: strings, ints, floats (exact rationals) and lists. -/
inductive PyVal where
  | str (s : String)
  | int (n : Int)
  | float (q : Rat)
  | list (xs : List PyVal)

/-- Python `+` on the value fragment above.  `str + int` raises `TypeError`
(this is the exception raised by `'percent_cpu' + i` in `log_entry`). -/
def pyAdd : PyVal → PyVal → Except PyError PyVal
  | PyVal.str a, PyVal.str b => Except.ok (PyVal.str (a ++ b))
  | PyVal.int a, PyVal.int b => Except.ok (PyVal.int (a + b))
  | PyVal.float a, PyVal.float b => Except.ok (PyVal.float (a + b))
  | PyVal.int a, PyVal.float b => Except.ok (PyVal.float ((a : Rat) + b))
  | PyVal.float a, PyVal.int b => Except.ok (PyVal.float (a + (b : Rat)))
  | PyVal.list a, PyVal.list b => Except.ok (PyVal.list (a ++ b))
  | _, _ => Except.error (PyError.typeError "can only concatenate str (not int) to str")

/-- Keyword arguments accepted by Python's built-in `print`. -/
def printKeywords : List String := ["sep", "end", "file", "flush"]

/-- A `print(line, kw=file_handle)` call writing to the log: if `kw` is not a
keyword `print` accepts, Python raises `TypeError` before writing anything;
otherwise the line is appended to the file content. -/
def pyPrintKw (kw : String) (line : String) (content : List String) :
    Except PyError (List String) :=
  if kw ∈ printKeywords then Except.ok (content ++ [line])
  else Except.error (PyError.typeError ("invalid keyword argument for print: " ++ kw))

/-- Python `sep.join(row)`: every element must be a `str`, otherwise
`TypeError`. -/
def pyJoin (sep : String) : List PyVal → Except PyError (List String)
  | [] => Except.ok []
  | PyVal.str s :: rest =>
    match pyJoin sep rest with
    | Except.error e => Except.error e
    | Except.ok tail => Except.ok (s :: tail)
  | _ => Except.error (PyError.typeError "sequence item: expected str instance")

/-- Python `s.startswith(p)` over explicit character lists. -/
def startsWithChars : List Char → List Char → Bool
  | [], _ => true
  | _ :: _, [] => false
  | p :: ps, c :: cs => p == c && startsWithChars ps cs

/-- Python `s.split(sep)` for a one-character separator, over character
lists (`''.split(c) = ['']`, like Python's `str.split` with an explicit
separator). -/
def splitOnChar (sep : Char) : List Char → List (List Char)
  | [] => [[]]
  | c :: cs =>
    let rest := splitOnChar sep cs
    if c == sep then [] :: rest
    else
      match rest with
      | [] => [[c]]
      | h :: t => (c :: h) :: t

/-- Value of a digit string. -/
def digitsVal (ds : List Char) : Nat :=
  ds.foldl (fun n c => 10 * n + (c.toNat - 48)) 0

/-- Python `float(s)` for a matched `\d+\.\d+` token, split into its integer
digits and fraction digits; the value is exact as a rational. -/
def floatOf (intDs fracDs : List Char) : Rat :=
  (digitsVal intDs : Rat) + (digitsVal fracDs : Rat) / ((10 : Rat) ^ fracDs.length)

/-- Match of the regex `\d+\.\d+` anchored at the start of the input:
one-or-more digits, a dot, one-or-more digits (greedy `\d+` needs no
backtracking here, since a shortened digit run is still followed by a digit,
never by the required dot). -/
def matchFloatAt (s : List Char) : Option (List Char × List Char) :=
  let ds := s.takeWhile Char.isDigit
  match ds with
  | [] => none
  | _ :: _ =>
    match s.drop ds.length with
    | '.' :: rest =>
      let fs := rest.takeWhile Char.isDigit
      match fs with
      | [] => none
      | _ :: _ => some (ds, fs)
    | _ => none

/-- `re.search('\d+\.\d+', line)`: leftmost match, or `None`. -/
def reSearchFloat : List Char → Option (List Char × List Char)
  | [] => none
  | c :: rest =>
    match matchFloatAt (c :: rest) with
    | some m => some m
    | none => reSearchFloat rest

/-- Static machine facts queried from psutil at `stats.__init__`
(`psutil.cpu_count(logical=False)`, `psutil.cpu_count(logical=True)`,
`psutil.virtual_memory().total`). -/
structure Machine where
  cpu_physical_count : Nat
  cpu_logical_count : Nat
  total_memory : Nat
  deriving DecidableEq, Repr

/-- One point-in-time answer of the external metrics providers used inside a
`now()` call: the wall clock (`datetime.datetime.now().isoformat(sep=' ')`),
`psutil.cpu_percent(interval=0.1, percpu=True)`,
`psutil.cpu_percent(interval=0.1, percpu=False)` and
`psutil.virtual_memory()`. -/
structure MetricsEnv where
  datetimeIso : String
  percpu_percent : List Rat
  cpu_percent : Rat
  memory_percent : Rat
  memory_available : Nat
  memory_used : Nat

/-- The Python class of a sampler object (`stats` or its subclass
`advanced_stats`); method dispatch on `.now()` is by this tag. -/
inductive SamplerClass where
  | stats
  | advanced_stats
  deriving DecidableEq, Repr

/-- The mutable attribute state of a `stats` / `advanced_stats` object.
`none` models an attribute that has never been assigned: reading it raises
`AttributeError`. -/
structure StatsObj where
  cls : SamplerClass
  computer : String
  command : String
  cpu_physical_count : Nat
  cpu_logical_count : Nat
  total_memory : Nat
  datetime : Option String
  cpu_temp : Option (List Rat)
  fan_speed : Option (List Rat)
  percpu_percent : Option (List Rat)
  cpu_percent : Option Rat
  memory_percent : Option Rat
  memory_available : Option Nat
  memory_used : Option Nat

/-- The `summary` dict literal that both `now()` methods build and return
(keys `datetime`, `cpu_temp`, `fan_speed`, `percpu_percent`,
`memory_percent`). -/
structure Summary where
  datetime : String
  cpu_temp : List Rat
  fan_speed : List Rat
  percpu_percent : List Rat
  memory_percent : Rat

/-- `stats.__init__(self, computer, command)` (src lines 56-61): records the
constructor arguments and the machine constants.  It assigns neither
`cpu_temp` nor `fan_speed` (nor any of the per-sample attributes). -/
def stats.init (computer command : String) (m : Machine) : StatsObj :=
  { cls := SamplerClass.stats
    computer := computer
    command := command
    cpu_physical_count := m.cpu_physical_count
    cpu_logical_count := m.cpu_logical_count
    total_memory := m.total_memory
    datetime := none
    cpu_temp := none
    fan_speed := none
    percpu_percent := none
    cpu_percent := none
    memory_percent := none
    memory_available := none
    memory_used := none }

/-- `stats.now(self)` (src lines 63-78): stores the current metrics on the
object, then builds the `summary` dict.  The dict literal reads
`self.cpu_temp` and `self.fan_speed`, attributes that no code path of the
base class ever assigns, so the read raises `AttributeError` unless some
earlier call stored them. -/
def stats.now (self : StatsObj) (env : MetricsEnv) :
    Except PyError (StatsObj × Summary) :=
  let self2 : StatsObj :=
    { self with
      datetime := some env.datetimeIso
      percpu_percent := some env.percpu_percent
      cpu_percent := some env.cpu_percent
      memory_percent := some env.memory_percent
      memory_available := some env.memory_available
      memory_used := some env.memory_used }
  match self2.cpu_temp with
  | none => Except.error (PyError.attributeError "cpu_temp")
  | some temps =>
    match self2.fan_speed with
    | none => Except.error (PyError.attributeError "fan_speed")
    | some fans =>
      Except.ok
        (self2,
         { datetime := env.datetimeIso
           cpu_temp := temps
           fan_speed := fans
           percpu_percent := env.percpu_percent
           memory_percent := env.memory_percent })

/-- Body of `if line.startswith('CPU'): self.cpu_temp.append(float(re.search(
'\d+\.\d+', line).group(0)))` (src lines 88-89): when the search returns
`None`, the `.group(0)` call raises `AttributeError`. -/
def parseCPUPart (acc : List Rat × List Rat) (line : List Char) :
    Except PyError (List Rat × List Rat) :=
  if startsWithChars ("CPU".data) line then
    match reSearchFloat line with
    | none => Except.error (PyError.attributeError "group")
    | some m => Except.ok (acc.1 ++ [floatOf m.1 m.2], acc.2)
  else Except.ok acc

/-- Body of `if line.startswith('Fan'): self.fan_speed.append(...)` (src
lines 90-91), same failure mode as the CPU branch. -/
def parseFanPart (acc : List Rat × List Rat) (line : List Char) :
    Except PyError (List Rat × List Rat) :=
  if startsWithChars ("Fan".data) line then
    match reSearchFloat line with
    | none => Except.error (PyError.attributeError "group")
    | some m => Except.ok (acc.1, acc.2 ++ [floatOf m.1 m.2])
  else Except.ok acc

/-- One iteration of the `for line in istats_stdout.split('\n')` loop (src
lines 87-91). -/
def parseSensorLine (acc : List Rat × List Rat) (line : List Char) :
    Except PyError (List Rat × List Rat) :=
  match parseCPUPart acc line with
  | Except.error e => Except.error e
  | Except.ok acc1 => parseFanPart acc1 line

/-- The whole `for line in ...` loop accumulating `cpu_temp` and `fan_speed`
readings; the first unparsable sensor line aborts it with the exception. -/
def parseSensorLines (acc : List Rat × List Rat) :
    List (List Char) → Except PyError (List Rat × List Rat)
  | [] => Except.ok acc
  | line :: rest =>
    match parseSensorLine acc line with
    | Except.error e => Except.error e
    | Except.ok acc2 => parseSensorLines acc2 rest

/-- `advanced_stats.now(self)` (src lines 81-105).  `istats` is the outcome
of `proc.check_output(['istats'])`: `Except.error` when the tool cannot be
launched (`FileNotFoundError`), `Except.ok stdout` otherwise.  On success the
method stores the parsed readings and metrics on the object and returns the
same five-key `summary` dict as the base class. -/
def advanced_stats.now (self : StatsObj) (env : MetricsEnv)
    (istats : Except PyError String) : Except PyError (StatsObj × Summary) :=
  let self1 : StatsObj := { self with datetime := some env.datetimeIso }
  match istats with
  | Except.error e => Except.error e
  | Except.ok istats_stdout =>
    match parseSensorLines ([], []) (splitOnChar '\n' istats_stdout.data) with
    | Except.error e => Except.error e
    | Except.ok readings =>
      let self2 : StatsObj :=
        { self1 with
          cpu_temp := some readings.1
          fan_speed := some readings.2
          percpu_percent := some env.percpu_percent
          cpu_percent := some env.cpu_percent
          memory_percent := some env.memory_percent
          memory_available := some env.memory_available
          memory_used := some env.memory_used }
      Except.ok
        (self2,
         { datetime := env.datetimeIso
           cpu_temp := readings.1
           fan_speed := readings.2
           percpu_percent := env.percpu_percent
           memory_percent := env.memory_percent })

/-- Python attribute dispatch for `obj.now()`: the method that runs is the
one of the object's class. -/
def dispatchNow (c : SamplerClass) (self : StatsObj) (env : MetricsEnv)
    (istats : Except PyError String) : Except PyError (StatsObj × Summary) :=
  match c with
  | SamplerClass.stats => stats.now self env
  | SamplerClass.advanced_stats => advanced_stats.now self env istats

/-- Evaluation of the list comprehension `['percent_cpu' + i for i in
range(cpu_logical_count)]` (src line 109): elements are evaluated left to
right and the first exception aborts the comprehension. -/
def listComp (body : Nat → Except PyError PyVal) :
    List Nat → Except PyError (List PyVal)
  | [] => Except.ok []
  | i :: rest =>
    match body i with
    | Except.error e => Except.error e
    | Except.ok v =>
      match listComp body rest with
      | Except.error e => Except.error e
      | Except.ok vs => Except.ok (v :: vs)

/-- The comprehension's element expression `'percent_cpu' + i` with `i` an
int drawn from `range(...)`: string plus int. -/
def percpuItem (i : Nat) : Except PyError PyVal :=
  pyAdd (PyVal.str "percent_cpu") (PyVal.int (Int.ofNat i))

/-- Evaluation of the bare name `status` on src line 114.  `status` is bound
neither in `log_entry`'s local scope (which holds `entry`, `logfile_path`,
`started`, `cpu_logical_count`, `advanced`, `header`, `file_handle`) nor at
module level, so Python raises `NameError`. -/
def statusLookup : Except PyError PyVal :=
  Except.error (PyError.nameError "status")

/-- `log_entry(entry, logfile_path, started=True, cpu_logical_count=8,
advanced=False)` (src lines 108-117), acting on the current content of the
log file (the function ignores its `logfile_path` parameter and appends to
the module-level `args.logfile`, the same file the header was written to;
opening in mode `'a'` leaves existing content unchanged).  The returned list
is the file content after the call; an exception leaves the file as it was,
since the sole write is the final `print`. -/
def log_entry (entry : Summary) (content : List String) (started : Bool)
    (cpu_logical_count : Nat) (advanced : Bool) :
    Except PyError (List String) :=
  match listComp percpuItem (List.range cpu_logical_count) with
  | Except.error e => Except.error e
  | Except.ok percpuCols =>
    let header := [PyVal.str "date", PyVal.str "time", PyVal.str "status",
                   PyVal.str "percent_memory_used"] ++ percpuCols
    let header := if advanced
      then header ++ [PyVal.str "cpu_temp", PyVal.str "fan_speed"]
      else header
    let dtParts := (splitOnChar ' ' entry.datetime.data).map
      (fun cs => PyVal.str (String.mk cs))
    match statusLookup with
    | Except.error e => Except.error e
    | Except.ok statusVal =>
      let row := dtParts ++ [statusVal, PyVal.float entry.memory_percent]
        ++ entry.percpu_percent.map PyVal.float
      let row := if advanced
        then row ++ [PyVal.list (entry.cpu_temp.map PyVal.float),
                     PyVal.list (entry.fan_speed.map PyVal.float)]
        else row
      match pyJoin "\x09" row with
      | Except.error e => Except.error e
      | Except.ok cells =>
        match pyPrintKw "f" (String.intercalate "\x09" cells) content with
        | Except.error e => Except.error e
        | Except.ok content2 =>
          let _ := header
          let _ := started
          Except.ok content2

/-- The parsed command-line arguments (src lines 121-135); `argparse` types:
`command`, `--computer`, `--logfile` are strings, the three durations are
ints, `--advanced` is a boolean flag. -/
structure Args where
  command : String
  prewait : Int
  interval : Int
  postwait : Int
  computer : String
  advanced : Bool
  logfile : String
  deriving DecidableEq, Repr

/-- The six header lines written to the freshly truncated log file (src
lines 138-144), in order. -/
def headerLines (a : Args) (m : Machine) : List String :=
  ["# computer : " ++ a.computer,
   "# command : " ++ a.command,
   "# cpu_cores : " ++ toString m.cpu_physical_count,
   "# logical_cores : " ++ toString m.cpu_logical_count,
   "# total_memory : " ++ toString m.total_memory,
   "# wait : " ++ toString a.prewait ++ ", " ++ toString a.interval
     ++ ", " ++ toString a.postwait]

/-- `s = stats(computer=args.computer, command=args.command)` (src line
137): the session's sampler object.  The constructor that runs is `stats`,
whatever the value of `args.advanced` (which this line does not read). -/
def sessionSampler (a : Args) (m : Machine) : StatsObj :=
  stats.init a.computer a.command m

/-- `datetime.now()` as written on src lines 149 and 164: `datetime` names
the module (imported via `import datetime`), which has no attribute `now`
(the intended call is `datetime.datetime.now()`), so the expression raises
`AttributeError`. -/
def datetime_now : Except PyError Unit :=
  Except.error (PyError.attributeError "now")

/-- Observable outcome of one run of the `__main__` block: the log file's
final content, whether `proc.Popen` (the child launch, src line 157) was
reached, and the uncaught exception that terminated the process, if any. -/
structure MainResult where
  log : List String
  launched : Bool
  exitError : Option PyError
  deriving DecidableEq, Repr

/-- Exit status of the CPython process for a run: `0` on normal completion,
`1` (the interpreter's generic status for any uncaught exception) otherwise.
No failure is given a distinct code. -/
def exitCode (r : MainResult) : Nat :=
  match r.exitError with
  | some _ => 1
  | none => 0

/-- The `__main__` block (src lines 137-169) after argument parsing.  In
order: construct the sampler (line 137); truncate the log file and write the
six header lines (lines 138-144); evaluate `log_entry(s.now(), f)` (line
146) — the argument `s.now()` is evaluated first and its exception, if any,
propagates before `log_entry` is entered; then `prewait_start =
datetime.now()` (line 149).  `datetime_now` always raises, so the prewait
loop (lines 150-154), the child launch (line 157), the RUNNING loop (lines
158-161) and the postwait loop (lines 163-169) are unreachable; the RUNNING
loop's structure is modelled separately by `runningLoop` below. -/
def runMain (a : Args) (m : Machine) (env : MetricsEnv)
    (istats : Except PyError String) : MainResult :=
  let s := sessionSampler a m
  let log0 := headerLines a m
  match dispatchNow s.cls s env istats with
  | Except.error e => { log := log0, launched := false, exitError := some e }
  | Except.ok se =>
    match log_entry se.2 log0 true 8 false with
    | Except.error e => { log := log0, launched := false, exitError := some e }
    | Except.ok log1 =>
      match datetime_now with
      | Except.error e => { log := log1, launched := false, exitError := some e }
      | Except.ok _ => { log := log1, launched := false, exitError := none }

/-- Liveness oracle for a child that the polls of the RUNNING loop observe
alive at polls `0, ..., k-1` and observe exited at poll `k` (so `k = 0` is a
child already dead at the first poll; `k` is the index of the observing
poll). -/
def aliveUntil (k : Nat) : Nat → Bool :=
  fun i => decide (i < k)

/-- Liveness oracle for a child that never terminates: every poll observes
it alive. -/
def neverExits : Nat → Bool :=
  fun _ => true

/-- The RUNNING loop `while program.poll() is None: log_entry(...); print('.');
time.sleep(args.interval)` (src lines 158-161), with the sample-and-log body
abstracted to the event "a RUNNING sample is taken after poll `i`" (the
body's own logging failure is the subject of separate claims).  `fuel`
bounds the unrolling so the never-terminating child stays definable; the
result is the list of poll indices after which a sample-and-log pass ran,
and whether the loop exited by observing the child dead (rather than by
running out of fuel). -/
def runningLoopGo (alive : Nat → Bool) : Nat → Nat → List Nat × Bool
  | 0, _ => ([], false)
  | Nat.succ fuel, i =>
    if alive i then
      let r := runningLoopGo alive fuel (i + 1)
      (i :: r.1, r.2)
    else ([], true)

/-- The RUNNING loop started at its first poll. -/
def runningLoop (alive : Nat → Bool) (fuel : Nat) : List Nat × Bool :=
  runningLoopGo alive fuel 0

/-! ### Concrete session fixtures used by closed theorems -/

/-- A machine with 4 physical / 8 logical cores and 16 GiB of memory. -/
def m0 : Machine :=
  { cpu_physical_count := 4, cpu_logical_count := 8, total_memory := 17179869184 }

/-- A machine with 2 physical / 4 logical cores. -/
def m4 : Machine :=
  { cpu_physical_count := 2, cpu_logical_count := 4, total_memory := 8589934592 }

/-- A metrics answer for `m0` (one reading per logical core). -/
def env0 : MetricsEnv :=
  { datetimeIso := "2026-10-12 10:00:00.000000"
    percpu_percent := [1, 2, 3, 4, 5, 6, 7, 8]
    cpu_percent := 4
    memory_percent := 50
    memory_available := 8589934592
    memory_used := 8589934592 }

/-- A metrics answer for `m4`. -/
def env4 : MetricsEnv :=
  { env0 with percpu_percent := [1, 2, 3, 4] }

/-- The parser's default configuration with the command `sleep 0`
(`--prewait 0 --interval 1800 --postwait 1800 --computer Unknown
--logfile load.log`, advanced off). -/
def argsDefault : Args :=
  { command := "sleep 0", prewait := 0, interval := 1800, postwait := 1800,
    computer := "Unknown", advanced := false, logfile := "load.log" }

/-- The default configuration with an unlaunchable command. -/
def argsBad : Args :=
  { argsDefault with command := "/no/such/binary" }

/-- The default configuration with `--advanced` set. -/
def argsAdv : Args :=
  { argsDefault with advanced := true }

/-- The session sampler object of the default configuration on `m0`. -/
def obj0 : StatsObj :=
  stats.init "Unknown" "sleep 0" m0

/-! ### Helper lemmas -/

/-- A sensor line `advanced_stats.now` cannot parse: it starts with `CPU` or
`Fan` (so the loop body runs `re.search(...).group(0)` on it) but holds no
`\d+\.\d+` token (so the search returns `None`). -/
def isBadSensorLine (line : List Char) : Bool :=
  (startsWithChars ("CPU".data) line || startsWithChars ("Fan".data) line)
    && (reSearchFloat line).isNone

/-- An `istats` stdout with at least one unparsable sensor line. -/
def hasBadSensorLine (out : String) : Bool :=
  (splitOnChar '\n' out.data).any isBadSensorLine

theorem parseSensorLine_bad (acc : List Rat × List Rat) (line : List Char)
    (h : isBadSensorLine line = true) :
    parseSensorLine acc line = Except.error (PyError.attributeError "group") := by
  unfold isBadSensorLine at h
  simp only [Bool.and_eq_true, Bool.or_eq_true, Option.isNone_iff_eq_none] at h
  obtain ⟨hpre, hnone⟩ := h
  unfold parseSensorLine parseCPUPart parseFanPart
  rcases hpre with hc | hf
  · simp [hc, hnone]
  · cases hc : startsWithChars ("CPU".data) line
    · simp [hc, hf, hnone]
    · simp [hc, hnone]

theorem parseSensorLine_ok (acc : List Rat × List Rat) (line : List Char)
    (h : isBadSensorLine line = false) :
    ∃ acc2, parseSensorLine acc line = Except.ok acc2 := by
  unfold isBadSensorLine at h
  unfold parseSensorLine parseCPUPart parseFanPart
  cases hr : reSearchFloat line with
  | some m =>
    cases hc : startsWithChars ("CPU".data) line <;>
      cases hf : startsWithChars ("Fan".data) line <;>
        simp [hr, hc, hf]
  | none =>
    rw [hr] at h
    simp only [Option.isNone_none, Bool.and_true, Bool.or_eq_false_iff] at h
    simp [h.1, h.2]

theorem parseSensorLines_bad :
    ∀ (lines : List (List Char)) (acc : List Rat × List Rat),
      lines.any isBadSensorLine = true →
      parseSensorLines acc lines = Except.error (PyError.attributeError "group") := by
  intro lines
  induction lines with
  | nil => intro acc h; simp at h
  | cons l rest ih =>
    intro acc h
    cases hb : isBadSensorLine l
    · have hrest : rest.any isBadSensorLine = true := by
        simpa [List.any_cons, hb] using h
      obtain ⟨acc2, hok⟩ := parseSensorLine_ok acc l hb
      simp [parseSensorLines, hok, ih acc2 hrest]
    · simp [parseSensorLines, parseSensorLine_bad acc l hb]

theorem runningLoopGo_exit (k : Nat) :
    ∀ fuel i, i ≤ k → k - i < fuel →
      runningLoopGo (aliveUntil k) fuel i = (List.range' i (k - i), true) := by
  intro fuel
  induction fuel with
  | zero => intro i _ h2; omega
  | succ fuel ih =>
    intro i h1 h2
    by_cases hi : i < k
    · have hrec := ih (i + 1) (by omega) (by omega)
      have hk : k - i = (k - (i + 1)) + 1 := by omega
      simp only [runningLoopGo, aliveUntil, hrec, hk, List.range'_succ]
      simp [hi]
    · have : i = k := by omega
      subst this
      simp [runningLoopGo, aliveUntil]

theorem runningLoopGo_never (fuel : Nat) :
    ∀ i, runningLoopGo neverExits fuel i = (List.range' i fuel, false) := by
  induction fuel with
  | zero => intro i; rfl
  | succ fuel ih => intro i; simp [runningLoopGo, neverExits, ih, List.range'_succ]

/-! ### Claim theorems -/

/-- C1: the RUNNING loop (src lines 158-161) polls first and samples only
while a poll has observed the child alive.  For a child observed alive at
polls `0..k-1` and observed exited at poll `k`, the loop performs
sample-and-log passes exactly after polls `0..k-1` (`List.range k`) — every
pass strictly precedes the exit-observing poll, so none happens after that
observation — and exits at poll `k` (`true`); `k = 0` is the zero-duration
child, where the loop exits at once with no pass.  For a never-terminating
child the loop never exits (`false` for every fuel bound) and samples at
every poll. -/
theorem running_loop_polling_discipline (k fuel fuel2 : Nat) (h : k < fuel) :
    runningLoop (aliveUntil k) fuel = (List.range k, true) ∧
    (runningLoop (aliveUntil k) fuel).1.all (aliveUntil k) = true ∧
    runningLoop neverExits fuel2 = (List.range fuel2, false) := by
  have h1 : runningLoop (aliveUntil k) fuel = (List.range k, true) := by
    unfold runningLoop
    rw [runningLoopGo_exit k fuel 0 (Nat.zero_le k) (by omega)]
    rw [List.range_eq_range', Nat.sub_zero]
  refine ⟨h1, ?_, ?_⟩
  · rw [h1]
    simp [aliveUntil, List.all_eq_true, List.mem_range]
  · unfold runningLoop
    rw [runningLoopGo_never fuel2 0, List.range_eq_range']

/-- Witness for C1 at a child observed exited at the third poll (`k = 2`)
with fuel 5, and a never-terminating child observed for 3 polls. -/
theorem running_loop_polling_discipline_witness :
    runningLoop (aliveUntil 2) 5 = (List.range 2, true) ∧
    (runningLoop (aliveUntil 2) 5).1.all (aliveUntil 2) = true ∧
    runningLoop neverExits 3 = (List.range 3, false) :=
  running_loop_polling_discipline 2 5 3 (by decide)

/-- C2 (evidence of the code bug): for every configuration, machine and
metrics answer, the session terminates with the uncaught
`AttributeError: cpu_temp` raised by `s.now()` on src line 146, and the log
file ends holding exactly the six header lines — zero PRE_WAIT and zero
POST_WAIT snapshots are ever logged, against the claimed at-least-one of
each. -/
theorem session_logs_no_snapshots (a : Args) (m : Machine) (env : MetricsEnv)
    (istats : Except PyError String) :
    (runMain a m env istats).log = headerLines a m ∧
    (headerLines a m).length = 6 ∧
    (runMain a m env istats).exitError = some (PyError.attributeError "cpu_temp") :=
  ⟨rfl, rfl, rfl⟩

/-- C3 (evidence of the code bug): with the prewait duration 0 (the
parser's default), the session aborts on src line 146 before completing a
single sample-and-log pass and before the child launch — there is no
one-pass PRE_WAIT; note also that the prewait loop it never reaches (src
lines 150-154) logs and then sleeps a full `interval` unconditionally before
its first elapsed-time check, so even without the crash a zero prewait would
not skip the interval sleep. -/
theorem prewait_zero_no_sample_pass :
    argsDefault.prewait = 0 ∧
    runMain argsDefault m0 env0 (Except.ok "") =
      { log := headerLines argsDefault m0, launched := false,
        exitError := some (PyError.attributeError "cpu_temp") } :=
  ⟨rfl, rfl⟩

/-- C4 (evidence of the code bug): the base sampler used in every session
(advanced mode on or off) builds a `summary` whose dict literal
unconditionally reads the temperature attribute `self.cpu_temp`, which
`stats.__init__` never assigns — so `stats.now` raises `AttributeError`
instead of producing a snapshot without temperature/fan fields. -/
theorem basic_sampler_demands_sensor_fields (c cmd : String) (m : Machine)
    (env : MetricsEnv) :
    stats.now (stats.init c cmd m) env =
      Except.error (PyError.attributeError "cpu_temp") :=
  rfl

/-- C5 counterexample: in advanced mode with the sensor tool absent
(`proc.check_output(['istats'])` raises `FileNotFoundError`), the sampling
call `advanced_stats.now` propagates the exception instead of returning a
summary with sentinel sensor values — the sampling call does abort. -/
theorem sensor_absence_aborts_sampling :
    advanced_stats.now obj0 env0 (Except.error (PyError.fileNotFoundError "istats"))
      = Except.error (PyError.fileNotFoundError "istats") :=
  rfl

/-- C5 (amended): in advanced mode, if the sensor tool cannot be launched
the exception propagates out of `advanced_stats.now` unchanged, and if the
tool's output holds a `CPU`/`Fan` line with no `\d+\.\d+` token the call
raises `AttributeError` from `.group(0)` on `None`; in neither case is a
summary with sentinel sensor values produced. -/
theorem advanced_now_propagates_sensor_failure (s : StatsObj) (env : MetricsEnv)
    (err : PyError) (out : String) (hbad : hasBadSensorLine out = true) :
    advanced_stats.now s env (Except.error err) = Except.error err ∧
    advanced_stats.now s env (Except.ok out)
      = Except.error (PyError.attributeError "group") := by
  constructor
  · rfl
  · have h2 : parseSensorLines ([], []) (splitOnChar '\n' out.data)
        = Except.error (PyError.attributeError "group") :=
      parseSensorLines_bad _ _ hbad
    simp [advanced_stats.now, h2]

/-- Witness for the amended C5 at a missing tool and at the unparsable
output line `CPU temp: unknown`. -/
theorem advanced_now_propagates_sensor_failure_witness :
    hasBadSensorLine "CPU temp: unknown" = true ∧
    (advanced_stats.now obj0 env0 (Except.error (PyError.fileNotFoundError "istats"))
        = Except.error (PyError.fileNotFoundError "istats") ∧
     advanced_stats.now obj0 env0 (Except.ok "CPU temp: unknown")
        = Except.error (PyError.attributeError "group")) :=
  ⟨by decide,
   advanced_now_propagates_sensor_failure obj0 env0
     (PyError.fileNotFoundError "istats") "CPU temp: unknown" (by decide)⟩

/-- C6 (evidence of the code bug): for the unlaunchable command
`/no/such/binary` the log does end with only the header and RUNNING is never
entered, but not because of any launch error: the session dies on src line
146 with the same `AttributeError: cpu_temp` — and hence the same
interpreter exit status — as a session with a perfectly valid command, so no
distinct launch-failure exit code exists. -/
theorem invalid_command_indistinct_failure :
    (runMain argsBad m0 env0 (Except.ok "")).launched = false ∧
    (runMain argsBad m0 env0 (Except.ok "")).log = headerLines argsBad m0 ∧
    (runMain argsBad m0 env0 (Except.ok "")).exitError
      = some (PyError.attributeError "cpu_temp") ∧
    exitCode (runMain argsBad m0 env0 (Except.ok ""))
      = exitCode (runMain argsDefault m0 env0 (Except.ok "")) :=
  ⟨rfl, rfl, rfl, rfl⟩

/-- C7 (evidence of the code bug): on a machine whose logical core count (4)
differs from `log_entry`'s hard default (8), the session still logs no
snapshot line at all — `log_entry` raises on every call — so the
constant-column-count invariant is never realized in any log file. -/
theorem session_on_four_core_machine_logs_nothing :
    m4.cpu_logical_count = 4 ∧
    (runMain argsDefault m4 env4 (Except.ok "")).log = headerLines argsDefault m4 ∧
    (runMain argsDefault m4 env4 (Except.ok "")).exitError
      = some (PyError.attributeError "cpu_temp") :=
  ⟨rfl, rfl, rfl⟩

/-- C8 counterexample: with advanced mode on, the header block is the same
six lines as with advanced mode off — computer, command, core counts, total
memory and the three wait values — and contains no marker that sensor
columns are present. -/
theorem header_has_no_sensor_marker :
    argsAdv.advanced = true ∧
    headerLines argsAdv m0 = headerLines argsDefault m0 ∧
    headerLines argsAdv m0 =
      ["# computer : Unknown", "# command : sleep 0", "# cpu_cores : 4",
       "# logical_cores : 8", "# total_memory : 17179869184",
       "# wait : 0, 1800, 1800"] :=
  ⟨rfl, rfl, rfl⟩

/-- C8 (amended): the header block is written exactly once, first —
in every session's final log file its six lines (computer label, command
string, physical core count, logical core count, total memory, and the three
wait/interval values) are the opening lines of the freshly truncated file —
but it carries no sensor-columns marker: it is identical for every value of
the advanced flag. -/
theorem header_once_first_and_advanced_independent (a : Args) (m : Machine)
    (env : MetricsEnv) (istats : Except PyError String) (b : Bool) :
    (runMain a m env istats).log.take 6 = headerLines a m ∧
    (headerLines a m).length = 6 ∧
    headerLines { a with advanced := b } m = headerLines a m :=
  ⟨rfl, rfl, rfl⟩

/-- C9: every call of `log_entry` raises before appending anything to the
log file: with a positive core count the header comprehension's
`'percent_cpu' + i` raises `TypeError`, and with core count 0 the row
expression's unbound name `status` raises `NameError` (and behind these the
final `print(..., f=file_handle)` could never write either).  The call
never returns new file content, so no snapshot line can ever be written. -/
theorem log_entry_always_raises (entry : Summary) (content : List String)
    (started : Bool) (n : Nat) (advanced : Bool) :
    log_entry entry content started n advanced =
      Except.error (if n = 0 then PyError.nameError "status"
        else PyError.typeError "can only concatenate str (not int) to str") := by
  cases n with
  | zero => rfl
  | succ m => simp [log_entry, List.range_succ_eq_map, listComp, percpuItem, pyAdd]

/-- C10: the sampler constructed on src line 137 is an instance of the base
`stats` class for every configuration — the line does not read
`args.advanced` — and method dispatch on it therefore always runs
`stats.now`, never `advanced_stats.now`. -/
theorem advanced_flag_never_changes_sampler (a : Args) (m : Machine)
    (env : MetricsEnv) (istats : Except PyError String) :
    (sessionSampler a m).cls = SamplerClass.stats ∧
    dispatchNow (sessionSampler a m).cls (sessionSampler a m) env istats
      = stats.now (sessionSampler a m) env :=
  ⟨rfl, rfl⟩
